import Mathlib

/-!
Verification of the crypto-bot position-lifecycle code against its
specification.  The repository carries three overlapping monitor-loop /
trading-state implementations (`src/web_server.py`, `src/bot.py`,
`src/watcher.py`), a Kraken exchange client (`src/exchange.py`) and a
signal processor (`src/signals.py`).  Each is shallowly embedded below:
Python `Decimal` values become `ℚ`, timestamps become `ℚ` seconds, the
outcomes of exchange / database calls made by an operation are passed in
as an explicit environment record, and every `create_order` invocation is
recorded in a trace list.  Thread locks are not modelled (the embedding
gives the sequential semantics of each critical section).
-/

/-- Round-half-even of a rational to an integer: the default rounding mode
of Python `Decimal.quantize` and of the built-in `round`. -/
def roundHalfEven (x : ℚ) : ℤ :=
  let f : ℤ := ⌊x⌋
  let r : ℚ := x - f
  if r < 1/2 then f
  else if 1/2 < r then f + 1
  else if f % 2 = 0 then f else f + 1

/-- Python `Decimal.quantize(Decimal('0.00000001'))`: 8 decimal places. -/
def quantize8 (x : ℚ) : ℚ := (roundHalfEven (x * 100000000) : ℚ) / 100000000

/-- Python `round(x, 4)`. -/
def round4 (x : ℚ) : ℚ := (roundHalfEven (x * 10000) : ℚ) / 10000

/-- One `create_order` invocation against the exchange client, recorded in
the order a run makes them (an invocation that raises is still recorded:
the call reached the venue wrapper). -/
inductive OrderCall
  | buyLimit
  | sellLimit
  | sellMarket
  deriving DecidableEq

namespace Web

/-- `INITIAL_CAPITAL = Decimal('40')` (web_server.py line 24). -/
def INITIAL_CAPITAL : ℚ := 40

/-- `DEFAULT_TRAILING = 0.02` (web_server.py line 23). -/
def DEFAULT_TRAILING : ℚ := 2/100

/-- The in-memory trading state of `web_server.TradingBot`: exactly the
fields written by `_reset_trading_state` (web_server.py lines 123-133). -/
structure State where
  active_position : Bool
  current_symbol : Option String
  entry_price : Option ℚ
  stop_price : Option ℚ
  position_size : ℚ
  take_profit : Option ℚ
  last_order_id : Option String
  last_update : Option ℚ
  current_capital : ℚ
  deriving DecidableEq

/-- `TradingBot._reset_trading_state` (web_server.py lines 123-133). -/
def reset_trading_state : State where
  active_position := false
  current_symbol := none
  entry_price := none
  stop_price := none
  position_size := 0
  take_profit := none
  last_order_id := none
  last_update := none
  current_capital := INITIAL_CAPITAL

/-- `TradingBot._validate_symbol` (web_server.py lines 144-149): a string
containing '/', splitting into exactly two parts (equivalently: containing
exactly one '/' character), listed in the loaded markets. -/
def validate_symbol (markets : List String) (symbol : String) : Bool :=
  symbol.data.contains '/' && (symbol.data.count '/' == 1) && markets.contains symbol

/-- Environment of one `execute_buy` call: the loaded markets and the
outcomes of the exchange calls the operation makes.  `ticker_ask = none`
models `_safe_get_ticker` returning `None`; `order_id = none` models
`create_order` raising (after `_execute_with_retry`'s bounded retries);
`min_order_size` is what `_get_min_order_size` returns (the market's
minimum, or its `Decimal('0.00000001')` fallback). -/
structure BuyEnv where
  markets : List String
  ticker_ask : Option ℚ
  min_order_size : ℚ
  order_id : Option String
  now : ℚ

/-- Outcome of `TradingBot.execute_buy`, mirroring its distinct
`return False, msg` sites and the success return. -/
inductive BuyResult
  | invalidSymbol
  | alreadyActive
  | tickerError
  | belowMin (m : ℚ)
  | orderError
  | ok (oid : String)
  deriving DecidableEq

/-- `TradingBot.execute_buy` (web_server.py lines 198-254).  Checks run in
source order: symbol validation, active-position guard, ticker fetch,
amount = `(capital / ask).quantize(1e-8)` against the minimum order size,
then the limit order; only on order success is the state mutated. -/
def execute_buy (env : BuyEnv) (symbol : String) (trailing_percent : ℚ)
    (take_profit : Option ℚ) (s : State) : BuyResult × State × List OrderCall :=
  if !(validate_symbol env.markets symbol) then (.invalidSymbol, s, [])
  else if s.active_position then (.alreadyActive, s, [])
  else
    match env.ticker_ask with
    | none => (.tickerError, s, [])
    | some ask =>
      let amount := quantize8 (s.current_capital / ask)
      if amount < env.min_order_size then (.belowMin env.min_order_size, s, [])
      else
        match env.order_id with
        | none => (.orderError, s, [OrderCall.buyLimit])
        | some oid =>
          (.ok oid,
           { s with
             active_position := true
             current_symbol := some symbol
             entry_price := some ask
             stop_price := some (ask * (1 - trailing_percent))
             position_size := amount
             take_profit := take_profit.map (fun tp => ask * (1 + tp))
             last_order_id := some oid
             last_update := some env.now },
           [OrderCall.buyLimit])

/-- Outcome of the post-order `_safe_get_ticker` call of `execute_sell`
(web_server.py line 294): the ticker's bid; `None` (a non-network
exception was caught inside `_safe_get_ticker`, lines 160-162); or a
`NetworkError` re-raised on the last retry (lines 156-158), which
propagates into `execute_sell`'s outer `except`. -/
inductive TickerOutcome
  | price (bid : ℚ)
  | returnedNone
  | raised
  deriving DecidableEq

/-- Whether the post-order ticker fetch re-raised. -/
def ticker_raised : TickerOutcome → Bool
  | .raised => true
  | _ => false

/-- Environment of one `execute_sell` call.  `balance_free = none` models
`fetch_balance` raising after retries; `limit_order_id = none` models the
limit `create_order` raising (triggering the market fallback);
`market_order_id = none` models the fallback raising too; `exit_ticker`
is the outcome of the post-order `_safe_get_ticker` call for the profit
computation. -/
structure SellEnv where
  balance_free : Option ℚ
  limit_order_id : Option String
  market_order_id : Option String
  exit_ticker : TickerOutcome

/-- Outcome of `TradingBot.execute_sell`. -/
inductive SellResult
  | noPosition
  | failed
  | ok (oid : String)
  deriving DecidableEq

/-- The transient capital update of `execute_sell` (web_server.py lines
294-299): on a non-`None` ticker, `current_capital += (bid - entry) * size`.
It is immediately overwritten by `_reset_trading_state`, which sets every
field including `current_capital`; kept to mirror the source. -/
def sell_capital_update (env : SellEnv) (s : State) : State :=
  match env.exit_ticker, s.entry_price with
  | .price bid, some ep =>
      { s with current_capital := s.current_capital + (bid - ep) * s.position_size }
  | _, _ => s

/-- `TradingBot.execute_sell` (web_server.py lines 256-306): active-position
guard, balance fetch, limit sell attempt with market fallback; after a
filled order the profit is added to `current_capital` and then
`_reset_trading_state()` overwrites the whole state.  If both order
attempts raise, the outer `except` returns failure with no state change;
likewise, if the post-order `_safe_get_ticker` (line 294) re-raises a
`NetworkError`, the outer `except` returns failure *without* resetting,
leaving the position tracked as active even though the order filled. -/
def execute_sell (env : SellEnv) (s : State) : SellResult × State × List OrderCall :=
  if !s.active_position then (.noPosition, s, [])
  else
    match env.balance_free with
    | none => (.failed, s, [])
    | some bal =>
      let _amount := quantize8 bal
      match env.limit_order_id with
      | some oid =>
        match env.exit_ticker with
        | .raised => (.failed, s, [OrderCall.sellLimit])
        | _ =>
          let _s1 := sell_capital_update env s
          (.ok oid, reset_trading_state, [OrderCall.sellLimit])
      | none =>
        match env.market_order_id with
        | none => (.failed, s, [OrderCall.sellLimit, OrderCall.sellMarket])
        | some oid =>
          match env.exit_ticker with
          | .raised => (.failed, s, [OrderCall.sellLimit, OrderCall.sellMarket])
          | _ =>
            let _s1 := sell_capital_update env s
            (.ok oid, reset_trading_state, [OrderCall.sellLimit, OrderCall.sellMarket])

/-- Environment of one `manage_orders` loop iteration: the wall-clock time
of the iteration, the bid `_safe_get_ticker` returns (`none` = failure),
and the environment used if the iteration triggers `execute_sell`. -/
structure TickEnv where
  now : ℚ
  ticker_bid : Option ℚ
  sellEnv : SellEnv

/-- `if self.last_update and (datetime.now() - self.last_update) >
timedelta(minutes=30)` (web_server.py line 320), in seconds. -/
def timeout_hit (e : TickEnv) (s : State) : Bool :=
  match s.last_update with
  | some u => decide (1800 < e.now - u)
  | none => false

/-- `if self.take_profit and current_price >= self.take_profit`
(web_server.py line 339). -/
def take_profit_hit (price : ℚ) (s : State) : Bool :=
  match s.take_profit with
  | some tp => decide (tp ≤ price)
  | none => false

/-- What one iteration of `manage_orders` (web_server.py lines 312-351) did. -/
inductive MonAction
  | idle
  | timeoutSell (r : SellResult)
  | tickerFail
  | stopLossSell (r : SellResult)
  | takeProfitSell (r : SellResult)
  | stopRaised
  | noChange
  | internalError
  deriving DecidableEq

/-- One iteration of the `manage_orders` monitor loop (web_server.py lines
312-351), the body of the `with self._lock:` block: inactive positions are
skipped; then the 30-minute safety timeout, the ticker fetch, the
stop-loss check, the take-profit check, and last the trailing-stop update
`new_stop = current_price * (1 - DEFAULT_TRAILING)` assigned only when
strictly greater than the current stop.  `internalError` covers the
comparison against a `None` stop raising into the loop's `except`. -/
def manage_orders_step (e : TickEnv) (s : State) : State × MonAction :=
  if !s.active_position then (s, .idle)
  else if timeout_hit e s then
    ((execute_sell e.sellEnv s).2.1, .timeoutSell (execute_sell e.sellEnv s).1)
  else
    match e.ticker_bid with
    | none => (s, .tickerFail)
    | some price =>
      match s.stop_price with
      | none => (s, .internalError)
      | some stop =>
        if price ≤ stop then
          ((execute_sell e.sellEnv s).2.1, .stopLossSell (execute_sell e.sellEnv s).1)
        else if take_profit_hit price s then
          ((execute_sell e.sellEnv s).2.1, .takeProfitSell (execute_sell e.sellEnv s).1)
        else
          let new_stop := price * (1 - DEFAULT_TRAILING)
          if stop < new_stop then
            ({ s with stop_price := some new_stop, last_update := some e.now }, .stopRaised)
          else (s, .noChange)

/-- A run of the monitor loop over a sequence of iterations, returning the
final state and the action of each iteration. -/
def manage_orders_run : List TickEnv → State → State × List MonAction
  | [], s => (s, [])
  | e :: rest, s =>
    let p := manage_orders_step e s
    let q := manage_orders_run rest p.1
    (q.1, p.2 :: q.2)

/-- Number of timeout-forced `execute_sell` calls in a run's action trace. -/
def count_forced : List MonAction → ℕ
  | [] => 0
  | .timeoutSell _ :: rest => count_forced rest + 1
  | _ :: rest => count_forced rest

/-- One call of the closure built by `TradingBot._create_nonce_generator`
(web_server.py lines 111-121): `current = int(time.time() * 1000)`;
`last_nonce = current if current > last_nonce else last_nonce + 1`.  The
arguments are the clock reading of this call and the last issued nonce;
the returned value is the nonce issued (and stored as the new last). -/
def nonce_step (current last : ℤ) : ℤ :=
  if last < current then current else last + 1

/-- `whenever no position is active, current_capital = INITIAL_CAPITAL`. -/
def CapInv (s : State) : Prop :=
  s.active_position = false → s.current_capital = INITIAL_CAPITAL

/-- Monitor-tick side conditions for the safety-timeout scenario: the
ticker succeeds with a bid strictly above the given stop (no stop-loss
exit) whose recomputed trailing stop does not exceed the stop (no
qualifying stop movement). -/
def tick_no_movement (stop : ℚ) (e : TickEnv) : Bool :=
  match e.ticker_bid with
  | none => false
  | some p => decide (stop < p) && decide (p * (1 - DEFAULT_TRAILING) ≤ stop)

/-- The sell environment lets `execute_sell` return success: the balance
fetch works, at least one of the limit / market attempts is filled, and
the post-order ticker fetch does not re-raise (a re-raise makes the call
return failure, web_server.py lines 304-306). -/
def sell_succeeds (env : SellEnv) : Bool :=
  env.balance_free.isSome &&
    (env.limit_order_id.isSome || env.market_order_id.isSome) &&
    !(ticker_raised env.exit_ticker)

end Web

namespace Exch

/-- `ExchangeClient._nonce_generator` (exchange.py lines 51-56): the
generator computes `last_nonce = int(time.time() + self.time_delta) * 1000`
once when created and then runs `while True: yield last_nonce + 1`,
never updating `last_nonce`.  `base` is that one-time value and `_i` the
index of the `next()` call: every call returns `base + 1`. -/
def nonce_value (base : ℤ) (_i : ℕ) : ℤ := base + 1

end Exch

namespace Bot

/-- `config.INITIAL_CAPITAL` (config.py lines 59-65, default `40.0`). -/
def INITIAL_CAPITAL : ℚ := 40

/-- The in-memory state of `bot.TradingBot`: the fields written by
`_reset_state` (bot.py lines 45-54). -/
structure State where
  active_position : Bool
  current_symbol : Option String
  position_id : Option ℕ
  entry_price : ℚ
  stop_price : ℚ
  position_size : ℚ
  last_update : ℚ
  deriving DecidableEq

/-- `TradingBot._reset_state` (bot.py lines 45-54); `last_update` is set to
the current `time.time()`. -/
def reset_state (now : ℚ) : State where
  active_position := false
  current_symbol := none
  position_id := none
  entry_price := 0
  stop_price := 0
  position_size := 0
  last_update := now

/-- Environment of one `_execute_sell` call (bot.py lines 189-224).
`balance_free = none` models `fetch_balance` raising inside
`_get_position_amount`; `limit_ok` / `market_ok` say whether the limit
attempt and the market fallback succeed; `post_ok` says whether the
post-order bookkeeping — `_calculate_pnl()` (which fetches a ticker) and
the `_update_position` DB write, lines 216-218 — completes without
raising. -/
structure SellEnv where
  balance_free : Option ℚ
  limit_ok : Bool
  market_ok : Bool
  post_ok : Bool
  now : ℚ

/-- `TradingBot._execute_sell` (bot.py lines 189-224).  `_get_position_amount`
returns `Decimal('0')` when no position is active, else the free balance;
`amount <= 0` raises `ValueError`; the limit order falls back to a market
order on any exception; a failing fallback re-raises out of the method,
and so does a failure of the post-order `_calculate_pnl` /
`_update_position` bookkeeping (caught at line 220, re-raised at 222).
Whatever happens, the `finally:` clause (lines 223-224) calls
`_reset_state()`, so the state this returns is always the reset state.
The `Bool` result records whether the method re-raised. -/
def execute_sell (env : SellEnv) (s : State) : State × List OrderCall × Bool :=
  let amount : ℚ := if !s.active_position then 0 else env.balance_free.getD 0
  if amount ≤ 0 then (reset_state env.now, [], true)
  else if env.limit_ok then (reset_state env.now, [OrderCall.sellLimit], !env.post_ok)
  else if env.market_ok then
    (reset_state env.now, [OrderCall.sellLimit, OrderCall.sellMarket], !env.post_ok)
  else (reset_state env.now, [OrderCall.sellLimit, OrderCall.sellMarket], true)

/-- The exception classes `execute_buy`'s handlers distinguish
(bot.py lines 146-155). -/
inductive BuyExc
  | network
  | exchange
  | generic
  deriving DecidableEq

/-- Environment of one bot `execute_buy` call: ticker outcome, exception
(if any) raised by `create_order`, whether the `_update_position` DB
insert succeeds, and the row id it returns. -/
structure BuyEnv where
  ticker_ask : Option ℚ
  order_exc : Option BuyExc
  db_ok : Bool
  new_position_id : ℕ
  now : ℚ

/-- Outcome of bot `execute_buy`, mirroring its return sites. -/
inductive BuyResult
  | activeErr (sym : Option String)
  | badMarketData
  | networkErr
  | exchangeErr
  | genericErr
  | ok
  deriving DecidableEq

/-- `TradingBot.execute_buy` (bot.py lines 102-155).  The active-position
guard comes first and returns `"Posición activa en {current_symbol}"`
with no mutation.  On order success `_update_position` only inserts the
DB row and sets `self.position_id`; note the source never assigns
`self.active_position`, `self.stop_price` or `self.trailing_percent`.
A generic exception runs the `except Exception` handler, which calls
`_reset_state()` (line 154). -/
def execute_buy (env : BuyEnv) (_symbol : String) (trailing_percent : ℚ)
    (s : State) : BuyResult × State × List OrderCall :=
  if s.active_position then (.activeErr s.current_symbol, s, [])
  else
    match env.ticker_ask with
    | none => (.badMarketData, s, [])
    | some ask =>
      let limit_price := ask * (101/100)
      let _amount := INITIAL_CAPITAL / limit_price
      let _stop_price := limit_price * (1 - trailing_percent)
      match env.order_exc with
      | some .network => (.networkErr, s, [OrderCall.buyLimit])
      | some .exchange => (.exchangeErr, s, [OrderCall.buyLimit])
      | some .generic => (.genericErr, reset_state env.now, [OrderCall.buyLimit])
      | none =>
        if env.db_ok then
          (.ok, { s with position_id := some env.new_position_id }, [OrderCall.buyLimit])
        else (.genericErr, reset_state env.now, [OrderCall.buyLimit])

/-- Environment of one `_manage_trailing_stop` iteration. -/
structure TickEnv where
  ticker_bid : Option ℚ
  sellEnv : SellEnv

/-- One iteration of `TradingBot._manage_trailing_stop` (bot.py lines
161-187), the body of the `with self.lock:` block: break when inactive;
`new_stop = current_price * (1 - self.trailing_percent)` assigned only
when strictly greater than the current stop; then the (updated) stop is
compared against the bid to trigger `_execute_sell`.  The source reads
`self.trailing_percent`, a field no method ever assigns (`execute_buy`'s
`trailing_percent` is a local parameter); the read value is passed here
as `tp`.  A ticker failure raises into the `except` (state unchanged,
backoff). -/
def trailing_step (tp : ℚ) (e : TickEnv) (s : State) : State × List OrderCall :=
  if !s.active_position then (s, [])
  else
    match e.ticker_bid with
    | none => (s, [])
    | some bid =>
      let new_stop := bid * (1 - tp)
      let s1 := if s.stop_price < new_stop then { s with stop_price := new_stop } else s
      if bid ≤ s1.stop_price then
        ((execute_sell e.sellEnv s1).1, (execute_sell e.sellEnv s1).2.1)
      else (s1, [])

end Bot

namespace Watch

/-- A row of the `positions` table as `Watcher._run` uses it
(watcher.py lines 40-60, schema in database.py lines 140-155; every
price column is `NOT NULL`, `highest_price` is kept as `Option` to model
Python's `or`-guard on line 44 faithfully). -/
structure Position where
  symbol : String
  amount : ℚ
  entry_price : ℚ
  trailing_pct : ℚ
  highest_price : Option ℚ
  stop_price : ℚ
  status : String
  deriving DecidableEq

/-- Python `pos.highest_price or ticker`: `None` and `0` are falsy. -/
def orFalsy (h : Option ℚ) (t : ℚ) : ℚ :=
  match h with
  | none => t
  | some v => if v = 0 then t else v

/-- One position update of `Watcher._run` (watcher.py lines 42-60):
`highest_price = max(highest_price or ticker, ticker)`, then the stop
assignment `stop_price = highest_price * (1 - trailing_pct)` — executed
unconditionally, with no strictly-greater guard — then the
trailing-stop sell trigger `ticker <= stop_price`, which places a limit
sell and marks the row closed.  Returns the updated position, whether
the stop assignment statement executed, and whether the sell fired. -/
def run_step (ticker : ℚ) (pos : Position) : Position × Bool × Bool :=
  let hp := max (orFalsy pos.highest_price ticker) ticker
  let sp := hp * (1 - pos.trailing_pct)
  let pos1 := { pos with highest_price := some hp, stop_price := sp }
  if ticker ≤ sp then ({ pos1 with status := "closed" }, true, true)
  else (pos1, true, false)

/-- Modelled from the spec: the open-position consistency that position
creation establishes.  The code that inserts `positions` rows for the
watcher (`src.trading_engine`, imported by watcher.py) is not in the
repository sources; per spec section 4.3 a position opens with
`stop_price = entry * (1 - trailing_pct)` and high water = entry > 0, so
an open row satisfies `stop_price ≤ highest_price * (1 - trailing_pct)`
with a positive high water and `trailing_pct ≤ 1` (spec section 3:
trailing_pct lies in (0, 1)). -/
def Inv (pos : Position) : Prop :=
  pos.trailing_pct ≤ 1 ∧
  ∃ v, pos.highest_price = some v ∧ 0 < v ∧
    pos.stop_price ≤ v * (1 - pos.trailing_pct)

end Watch

namespace Sig

/-- The duplicate-detection key of `SignalProcessor._is_duplicate`
(signals.py lines 117-126): `hash(frozenset((symbol, action,
trailing_stop)))`.  The frozenset of the unordered triple is modelled as
the finite set itself (strings on the left, the trailing rational on the
right); Python's `hash` of it is modelled injectively. -/
abbrev SigKey := Finset (Sum String ℚ)

/-- A normalized signal as built by `_normalize_signal`
(signals.py lines 86-94). -/
structure NormSignal where
  action : String
  symbol : String
  trailing_stop : ℚ
  timestamp : ℚ
  take_profit : Option ℚ
  deriving DecidableEq

/-- `frozenset((signal['symbol'], signal['action'], signal['trailing_stop']))`. -/
def sigKey (n : NormSignal) : SigKey :=
  {Sum.inl n.symbol, Sum.inl n.action, Sum.inr n.trailing_stop}

/-- The `_last_processed` dict, keyed by symbol. -/
abbrev LastMap := List (String × SigKey)

/-- Python `dict.get`. -/
def lpGet : LastMap → String → Option SigKey
  | [], _ => none
  | (s, k) :: rest, q => if s = q then some k else lpGet rest q

/-- Python `dict` assignment. -/
def lpSet : LastMap → String → SigKey → LastMap
  | [], q, k => [(q, k)]
  | (s, k') :: rest, q, k =>
    if s = q then (q, k) :: rest else (s, k') :: lpSet rest q k

/-- `SignalProcessor._is_duplicate` (signals.py lines 117-126): compare
the key of this signal with the last one stored for its symbol; when they
match return `True` (dict untouched), else store the key and return
`False`.  A symbol never seen compares against `None`, never equal. -/
def is_duplicate (n : NormSignal) (m : LastMap) : Bool × LastMap :=
  let key := sigKey n
  match lpGet m n.symbol with
  | some k => if k = key then (true, m) else (false, lpSet m n.symbol key)
  | none => (false, lpSet m n.symbol key)

/-- The Kraken symbol map of `_normalize_symbol` (signals.py lines 99-104). -/
def kraken_symbols : List (String × String) :=
  [("REP/EUR", "XREPZEUR"), ("XREP/EUR", "XREPZEUR"),
   ("REPZEUR", "XREPZEUR"), ("XREPZEUR", "XREPZEUR")]

/-- Association-list lookup for the symbol map. -/
def lookupStr : List (String × String) → String → Option String
  | [], _ => none
  | (a, b) :: rest, q => if a = q then some b else lookupStr rest q

/-- Python `str.upper`, character by character. -/
def upperStr (s : String) : String := ⟨s.data.map Char.toUpper⟩

/-- Python `str.lower`, character by character. -/
def lowerStr (s : String) : String := ⟨s.data.map Char.toLower⟩

/-- Python `str.replace(' ', '')`: remove every space character. -/
def stripSpaces (s : String) : String := ⟨s.data.filter (fun c => c != ' ')⟩

/-- `SignalProcessor._normalize_symbol` (signals.py lines 96-105):
`kraken_symbols.get(symbol.upper().replace(' ', ''), symbol.upper())`
(the code after the `return` is unreachable). -/
def normalize_symbol (symbol : String) : String :=
  (lookupStr kraken_symbols (stripSpaces (upperStr symbol))).getD (upperStr symbol)

/-- A raw inbound signal carrying the three required fields (requests
missing one are rejected by the required-fields check and are not
modelled further). -/
structure RawSignal where
  action : String
  symbol : String
  trailing_stop : ℚ
  take_profit : Option ℚ
  deriving DecidableEq

/-- `symbol_blacklist` of `_configure_validations` (signals.py line 35). -/
def symbol_blacklist : List String := ["TESTNET", "FAKE"]

/-- `SignalProcessor._validate_signal` (signals.py lines 59-84) for a
request carrying the required fields: action in `{buy, sell}` (lowered),
trailing stop within `[0.001, 0.2]`, normalized symbol not blacklisted. -/
def validate_signal (sig : RawSignal) : Bool :=
  (lowerStr sig.action == "buy" || lowerStr sig.action == "sell") &&
  (decide (1/1000 ≤ sig.trailing_stop) && decide (sig.trailing_stop ≤ 1/5)) &&
  !(symbol_blacklist.contains (normalize_symbol sig.symbol))

/-- `SignalProcessor._normalize_signal` (signals.py lines 86-94). -/
def normalize_signal (sig : RawSignal) (now : ℚ) : NormSignal where
  action := lowerStr sig.action
  symbol := normalize_symbol sig.symbol
  trailing_stop := round4 sig.trailing_stop
  timestamp := now
  take_profit := sig.take_profit.map round4

/-- `SignalProcessor.process_signal` (signals.py lines 38-57): validate,
normalize, suppress duplicates. -/
def process_signal (sig : RawSignal) (now : ℚ) (m : LastMap) :
    Option NormSignal × LastMap :=
  if !(validate_signal sig) then (none, m)
  else
    let n := normalize_signal sig now
    let d := is_duplicate n m
    if d.1 then (none, d.2) else (some n, d.2)

end Sig

/-! ## Helper lemmas -/

/-- `web_server.execute_sell` either leaves the state untouched (guard or
failure paths) or resets it (order success path). -/
lemma web_sell_state (env : Web.SellEnv) (s : Web.State) :
    (Web.execute_sell env s).2.1 = s ∨
      (Web.execute_sell env s).2.1 = Web.reset_trading_state := by
  cases hA : s.active_position with
  | false => left; simp [Web.execute_sell, hA]
  | true =>
    cases hB : env.balance_free with
    | none => left; simp [Web.execute_sell, hA, hB]
    | some bal =>
      cases hL : env.limit_order_id with
      | some oid =>
        cases hT : env.exit_ticker with
        | price bid => right; simp [Web.execute_sell, hA, hB, hL, hT]
        | returnedNone => right; simp [Web.execute_sell, hA, hB, hL, hT]
        | raised => left; simp [Web.execute_sell, hA, hB, hL, hT]
      | none =>
        cases hM : env.market_order_id with
        | none => left; simp [Web.execute_sell, hA, hB, hL, hM]
        | some oid =>
          cases hT : env.exit_ticker with
          | price bid => right; simp [Web.execute_sell, hA, hB, hL, hM, hT]
          | returnedNone => right; simp [Web.execute_sell, hA, hB, hL, hM, hT]
          | raised => left; simp [Web.execute_sell, hA, hB, hL, hM, hT]

/-- `bot._execute_sell` always ends in `_reset_state()` (the `finally:`
clause). -/
lemma bot_sell_reset (env : Bot.SellEnv) (s : Bot.State) :
    (Bot.execute_sell env s).1 = Bot.reset_state env.now := by
  unfold Bot.execute_sell
  by_cases h0 : (if !s.active_position then (0 : ℚ) else env.balance_free.getD 0) ≤ 0
  · simp only [h0, if_true]
  · simp only [h0, if_false]
    by_cases hL : env.limit_ok
    · simp [hL]
    · by_cases hM : env.market_ok <;> simp [hL, hM]

/-! ## C7 -/

def c7_env : Web.BuyEnv where
  markets := ["BTC/EUR"]
  ticker_ask := some 100000
  min_order_size := 5/10000
  order_id := some "OID-1"
  now := 0

/-- C7: `execute_buy` with capital 40 and ask 100000 on a pair with
minimum order size 0.0005 computes amount `quantize8(40/100000) = 0.0004`,
below the minimum, so the call fails with the below-minimum error, places
no order, and leaves the trading state untouched. -/
theorem c7_below_minimum :
    Web.execute_buy c7_env "BTC/EUR" (2/100) none Web.reset_trading_state =
      (Web.BuyResult.belowMin (5/10000), Web.reset_trading_state, []) ∧
    quantize8 (Web.INITIAL_CAPITAL / 100000) = 4/10000 := by
  have hval : Web.validate_symbol ["BTC/EUR"] "BTC/EUR" = true := by decide
  constructor
  · norm_num [Web.execute_buy, hval, c7_env, Web.reset_trading_state,
      Web.INITIAL_CAPITAL, quantize8, roundHalfEven]
  · norm_num [Web.INITIAL_CAPITAL, quantize8, roundHalfEven]

/-! ## C1 -/

def c1_pos : Watch.Position where
  symbol := "XREPZEUR"
  amount := 1
  entry_price := 100
  trailing_pct := 2/100
  highest_price := some 100
  stop_price := 98
  status := "open"

/-- C1 counterexample: in `Watcher._run` the recomputed stop is assigned
unconditionally, not only when strictly greater than the current stop.
For the open position with high water 100, trailing 2% and stop 98, a
tick at price 100 executes the stop assignment (watcher.py line 45)
although the assigned stop, 98, is not strictly greater than the current
stop 98. -/
theorem c1_watcher_assigns_unconditionally :
    (Watch.run_step 100 c1_pos).2.1 = true ∧
      ¬ c1_pos.stop_price < (Watch.run_step 100 c1_pos).1.stop_price := by
  constructor
  · norm_num [Watch.run_step, Watch.orFalsy, c1_pos]
  · norm_num [Watch.run_step, Watch.orFalsy, c1_pos]

/-- C1 amended: the in-memory stop price never decreases in any of the
three monitor loops, but the guarded-assignment mechanism holds only for
`web_server.manage_orders` and `bot._manage_trailing_stop`;
`watcher._run` reassigns `stop_price = highest_price * (1 - trailing_pct)`
on every tick, and its stop is non-decreasing because the high-water
price is non-decreasing, for any open position satisfying the creation
consistency `Watch.Inv`.  Web part: an iteration that leaves the position
active maps a stop of `v` to a stop `v' ≥ v`.  Bot part: likewise.
Watcher part: a tick never lowers the stop and preserves `Watch.Inv`. -/
theorem c1_stop_nondecreasing :
    (∀ (e : Web.TickEnv) (s : Web.State) (v v' : ℚ),
        (Web.manage_orders_step e s).1.active_position = true →
        s.stop_price = some v →
        (Web.manage_orders_step e s).1.stop_price = some v' → v ≤ v') ∧
    (∀ (tp : ℚ) (e : Bot.TickEnv) (s : Bot.State),
        (Bot.trailing_step tp e s).1.active_position = true →
        s.stop_price ≤ (Bot.trailing_step tp e s).1.stop_price) ∧
    (∀ (t : ℚ) (pos : Watch.Position), Watch.Inv pos →
        pos.stop_price ≤ (Watch.run_step t pos).1.stop_price ∧
          Watch.Inv (Watch.run_step t pos).1) := by
  refine ⟨?web, ?bot, ?watch⟩
  case web =>
    intro e s v v' _hact hv hv'
    cases hA : s.active_position with
    | false =>
      simp only [Web.manage_orders_step, hA, Bool.not_false, if_true] at hv'
      rw [hv] at hv'
      exact le_of_eq (Option.some_injective ℚ hv')
    | true =>
      cases hT : Web.timeout_hit e s with
      | true =>
        simp only [Web.manage_orders_step, hA, Bool.not_true, Bool.false_eq_true,
          if_false, hT, if_true] at hv'
        rcases web_sell_state e.sellEnv s with h | h
        · rw [h, hv] at hv'
          exact le_of_eq (Option.some_injective ℚ hv')
        · rw [h] at hv'
          simp [Web.reset_trading_state] at hv'
      | false =>
        cases hB : e.ticker_bid with
        | none =>
          simp only [Web.manage_orders_step, hA, Bool.not_true, Bool.false_eq_true,
            if_false, hT, hB] at hv'
          rw [hv] at hv'
          exact le_of_eq (Option.some_injective ℚ hv')
        | some price =>
          cases hS : s.stop_price with
          | none => rw [hS] at hv; cases hv
          | some stop =>
            have hsv : stop = v := by rw [hS] at hv; exact Option.some_injective ℚ hv
            by_cases hPS : price ≤ stop
            · simp only [Web.manage_orders_step, hA, Bool.not_true, Bool.false_eq_true,
                if_false, hT, hB, hS, hPS, if_true] at hv'
              rcases web_sell_state e.sellEnv s with h | h
              · rw [h, hS] at hv'
                rw [← hsv]
                exact le_of_eq (Option.some_injective ℚ hv')
              · rw [h] at hv'
                simp [Web.reset_trading_state] at hv'
            · cases hTP : Web.take_profit_hit price s with
              | true =>
                simp only [Web.manage_orders_step, hA, Bool.not_true, Bool.false_eq_true,
                  if_false, hT, hB, hS, hPS, hTP, if_true] at hv'
                rcases web_sell_state e.sellEnv s with h | h
                · rw [h, hS] at hv'
                  rw [← hsv]
                  exact le_of_eq (Option.some_injective ℚ hv')
                · rw [h] at hv'
                  simp [Web.reset_trading_state] at hv'
              | false =>
                by_cases hNS : stop < price * (1 - Web.DEFAULT_TRAILING)
                · simp only [Web.manage_orders_step, hA, Bool.not_true, Bool.false_eq_true,
                    if_false, hT, hB, hS, hPS, hTP, hNS, if_true] at hv'
                  have heq : price * (1 - Web.DEFAULT_TRAILING) = v' :=
                    Option.some_injective ℚ hv'
                  rw [← hsv]
                  rw [heq] at hNS
                  exact le_of_lt hNS
                · simp only [Web.manage_orders_step, hA, Bool.not_true, Bool.false_eq_true,
                    if_false, hT, hB, hS, hPS, hTP, hNS, if_false] at hv'
                  rw [← hsv]
                  exact le_of_eq (Option.some_injective ℚ hv')
  case bot =>
    intro tp e s hact
    cases hA : s.active_position with
    | false => simp [Bot.trailing_step, hA]
    | true =>
      cases hB : e.ticker_bid with
      | none => simp [Bot.trailing_step, hA, hB]
      | some bid =>
        by_cases hNS : s.stop_price < bid * (1 - tp)
        · by_cases hSell :
            bid ≤ ({ s with stop_price := bid * (1 - tp) } : Bot.State).stop_price
          · simp only [Bot.trailing_step, hA, Bool.not_true, Bool.false_eq_true,
              if_false, hB, hNS, if_true, hSell] at hact
            rw [bot_sell_reset] at hact
            simp [Bot.reset_state] at hact
          · simp only [Bot.trailing_step, hA, Bool.not_true, Bool.false_eq_true,
              if_false, hB, hNS, if_true, hSell, if_false]
            exact le_of_lt hNS
        · by_cases hSell : bid ≤ s.stop_price
          · simp only [Bot.trailing_step, hA, Bool.not_true, Bool.false_eq_true,
              if_false, hB, hNS, if_false, hSell, if_true] at hact
            rw [bot_sell_reset] at hact
            simp [Bot.reset_state] at hact
          · simp only [Bot.trailing_step, hA, Bool.not_true, Bool.false_eq_true,
              if_false, hB, hNS, if_false, hSell]
            exact le_refl _
  case watch =>
    intro t pos hinv
    obtain ⟨htp, v, hv, hvpos, hle⟩ := hinv
    have hvne : v ≠ 0 := ne_of_gt hvpos
    have hfal : Watch.orFalsy pos.highest_price t = v := by
      simp [Watch.orFalsy, hv, hvne]
    have htr : (0 : ℚ) ≤ 1 - pos.trailing_pct := by linarith
    have hstop : pos.stop_price ≤
        max (Watch.orFalsy pos.highest_price t) t * (1 - pos.trailing_pct) := by
      rw [hfal]
      calc pos.stop_price ≤ v * (1 - pos.trailing_pct) := hle
        _ ≤ max v t * (1 - pos.trailing_pct) :=
          mul_le_mul_of_nonneg_right (le_max_left v t) htr
    have hhp : (0 : ℚ) < max (Watch.orFalsy pos.highest_price t) t := by
      rw [hfal]; exact lt_of_lt_of_le hvpos (le_max_left v t)
    unfold Watch.run_step
    by_cases hSell :
        t ≤ max (Watch.orFalsy pos.highest_price t) t * (1 - pos.trailing_pct)
    · simp only [hSell, if_true]
      exact ⟨hstop, htp, max (Watch.orFalsy pos.highest_price t) t, rfl, hhp, le_refl _⟩
    · simp only [hSell, if_false]
      exact ⟨hstop, htp, max (Watch.orFalsy pos.highest_price t) t, rfl, hhp, le_refl _⟩

def c1_web_state : Web.State where
  active_position := true
  current_symbol := some "BTC/EUR"
  entry_price := some 100
  stop_price := some 98
  position_size := 2/5
  take_profit := none
  last_order_id := some "B1"
  last_update := some 0
  current_capital := 40

def c1_tick : Web.TickEnv where
  now := 60
  ticker_bid := some 100
  sellEnv :=
    { balance_free := some 1, limit_order_id := some "L",
      market_order_id := none, exit_ticker := Web.TickerOutcome.price 100 }

def c1_bot_state : Bot.State where
  active_position := true
  current_symbol := some "XREPZEUR"
  position_id := some 1
  entry_price := 100
  stop_price := 98
  position_size := 1
  last_update := 0

def c1_bot_tick : Bot.TickEnv where
  ticker_bid := some 100
  sellEnv :=
    { balance_free := some 1, limit_ok := true, market_ok := true,
      post_ok := true, now := 0 }

/-- Witness for C1: the amended theorem applied at a concrete monitor tick
of each of the three implementations. -/
theorem c1_stop_nondecreasing_witness :
    ((98 : ℚ) ≤ 98) ∧
    (c1_bot_state.stop_price ≤
      (Bot.trailing_step (2/100) c1_bot_tick c1_bot_state).1.stop_price) ∧
    (c1_pos.stop_price ≤ (Watch.run_step 100 c1_pos).1.stop_price ∧
      Watch.Inv (Watch.run_step 100 c1_pos).1) :=
  ⟨c1_stop_nondecreasing.1 c1_tick c1_web_state 98 98
      (by norm_num [Web.manage_orders_step, Web.timeout_hit, Web.take_profit_hit,
        Web.DEFAULT_TRAILING, c1_tick, c1_web_state])
      (by simp [c1_web_state])
      (by norm_num [Web.manage_orders_step, Web.timeout_hit, Web.take_profit_hit,
        Web.DEFAULT_TRAILING, c1_tick, c1_web_state]),
   c1_stop_nondecreasing.2.1 (2/100) c1_bot_tick c1_bot_state
      (by norm_num [Bot.trailing_step, c1_bot_tick, c1_bot_state]),
   c1_stop_nondecreasing.2.2 100 c1_pos
      ⟨by norm_num [c1_pos], 100, rfl, by norm_num, by norm_num [c1_pos]⟩⟩

/-! ## C2 -/

def c2_buy_env : Web.BuyEnv where
  markets := ["BTC/EUR"]
  ticker_ask := some 100
  min_order_size := 1/100000000
  order_id := some "B1"
  now := 0

def c2_state : Web.State :=
  (Web.execute_buy c2_buy_env "BTC/EUR" (5/100) none Web.reset_trading_state).2.1

def c2_tick : Web.TickEnv where
  now := 60
  ticker_bid := some 100
  sellEnv :=
    { balance_free := some 1, limit_order_id := some "L",
      market_order_id := none, exit_ticker := Web.TickerOutcome.price 100 }

def c2_expected : Web.State where
  active_position := true
  current_symbol := some "BTC/EUR"
  entry_price := some 100
  stop_price := some 95
  position_size := 2/5
  take_profit := none
  last_order_id := some "B1"
  last_update := some 0
  current_capital := 40

/-- C2: after a buy configured with trailing 5% at ask 100 (stop 95), the
very next `manage_orders` tick at bid 100 recomputes the stop as
`100 * (1 - DEFAULT_TRAILING) = 98` — the hardcoded 2% of
web_server.py line 345 — not `100 * (1 - 0.05) = 95` from the trailing
percentage configured at buy time. -/
theorem c2_loop_uses_default_trailing :
    c2_state.stop_price = some 95 ∧
    (Web.manage_orders_step c2_tick c2_state).1.stop_price = some 98 ∧
    (98 : ℚ) ≠ 100 * (1 - 5/100) := by
  have hval : Web.validate_symbol ["BTC/EUR"] "BTC/EUR" = true := by decide
  have hst : c2_state = c2_expected := by
    norm_num [c2_state, Web.execute_buy, hval, c2_buy_env, Web.reset_trading_state,
      Web.INITIAL_CAPITAL, quantize8, roundHalfEven, c2_expected]
  refine ⟨by rw [hst]; rfl, ?_, by norm_num⟩
  rw [hst]
  norm_num [Web.manage_orders_step, Web.timeout_hit, Web.take_profit_hit,
    Web.DEFAULT_TRAILING, c2_tick, c2_expected]

/-! ## C3 -/

def c3_bot_state : Bot.State where
  active_position := true
  current_symbol := some "XREPZEUR"
  position_id := some 1
  entry_price := 100
  stop_price := 98
  position_size := 1
  last_update := 0

def c3_bot_env : Bot.SellEnv where
  balance_free := some 1
  limit_ok := false
  market_ok := false
  post_ok := true
  now := 1000

def c3_web_state : Web.State where
  active_position := true
  current_symbol := some "BTC/EUR"
  entry_price := some 100
  stop_price := some 98
  position_size := 2/5
  take_profit := none
  last_order_id := some "B1"
  last_update := some 0
  current_capital := 40

def c3_web_env : Web.SellEnv where
  balance_free := some 1
  limit_order_id := none
  market_order_id := none
  exit_ticker := Web.TickerOutcome.price 100

/-- C3: when both the limit and the fallback market sell raise, bot.py's
`finally: self._reset_state()` still runs, so the active position with
entry 100 / stop 98 ends with `active_position = false` and cleared
fields — the failed sell silently drops position tracking (the method
re-raises, third component `true`).  web_server's `execute_sell` on the
same double failure returns `failed` and leaves the state untouched. -/
theorem c3_failed_sell_drops_position :
    (Bot.execute_sell c3_bot_env c3_bot_state).1.active_position = false ∧
    (Bot.execute_sell c3_bot_env c3_bot_state).1 = Bot.reset_state 1000 ∧
    (Bot.execute_sell c3_bot_env c3_bot_state).2.2 = true ∧
    Web.execute_sell c3_web_env c3_web_state =
      (Web.SellResult.failed, c3_web_state, [OrderCall.sellLimit, OrderCall.sellMarket]) := by
  refine ⟨?_, ?_, ?_, ?_⟩
  · norm_num [Bot.execute_sell, Bot.reset_state, c3_bot_env, c3_bot_state]
  · norm_num [Bot.execute_sell, Bot.reset_state, c3_bot_env, c3_bot_state]
  · norm_num [Bot.execute_sell, c3_bot_env, c3_bot_state]
  · norm_num [Web.execute_sell, c3_web_env, c3_web_state]

/-! ## C4 -/

def c4_state : Web.State where
  active_position := true
  current_symbol := some "ETH/EUR"
  entry_price := some 100
  stop_price := some 98
  position_size := 2/5
  take_profit := none
  last_order_id := some "B7"
  last_update := some 0
  current_capital := 40

def c4_env : Web.BuyEnv where
  markets := ["ETH/EUR"]
  ticker_ask := some 100
  min_order_size := 1/100000000
  order_id := some "X"
  now := 5

/-- C4 counterexample: with a position already active, the call
`execute_buy("BAD", ...)` fails with the symbol-format error, not with a
failure identifying the already-active position — web_server validates
the symbol before checking `active_position` (web_server.py lines
203-207). -/
theorem c4_counterexample :
    (Web.execute_buy c4_env "BAD" (2/100) none c4_state).1 =
      Web.BuyResult.invalidSymbol ∧
    Web.BuyResult.invalidSymbol ≠ Web.BuyResult.alreadyActive := by
  have hval : Web.validate_symbol ["ETH/EUR"] "BAD" = false := by decide
  constructor
  · simp [Web.execute_buy, c4_env, hval]
  · simp

/-- C4 amended: while a position is active, every `execute_buy` call
fails, mutates no trading state and places no order; the failure
identifies the already-active position except in web_server when the
symbol itself fails validation (the symbol-format error is reported
instead); bot.py checks the active position first and always reports it
together with the current symbol. -/
theorem c4_reject_no_mutation :
    (∀ (env : Web.BuyEnv) (symbol : String) (t : ℚ) (tp : Option ℚ) (s : Web.State),
        s.active_position = true →
        (Web.execute_buy env symbol t tp s).2.1 = s ∧
        (Web.execute_buy env symbol t tp s).2.2 = [] ∧
        ((Web.execute_buy env symbol t tp s).1 = Web.BuyResult.invalidSymbol ∨
          (Web.execute_buy env symbol t tp s).1 = Web.BuyResult.alreadyActive) ∧
        (Web.validate_symbol env.markets symbol = true →
          (Web.execute_buy env symbol t tp s).1 = Web.BuyResult.alreadyActive)) ∧
    (∀ (env : Bot.BuyEnv) (symbol : String) (t : ℚ) (s : Bot.State),
        s.active_position = true →
        Bot.execute_buy env symbol t s =
          (Bot.BuyResult.activeErr s.current_symbol, s, [])) := by
  constructor
  · intro env symbol t tp s hA
    cases hV : Web.validate_symbol env.markets symbol with
    | false =>
      refine ⟨?_, ?_, Or.inl ?_, ?_⟩ <;>
        simp [Web.execute_buy, hV]
    | true =>
      refine ⟨?_, ?_, Or.inr ?_, ?_⟩ <;>
        simp [Web.execute_buy, hV, hA]
  · intro env symbol t s hA
    simp [Bot.execute_buy, hA]

def c4_bot_env : Bot.BuyEnv where
  ticker_ask := some 100
  order_exc := none
  db_ok := true
  new_position_id := 2
  now := 0

def c4_bot_state : Bot.State where
  active_position := true
  current_symbol := some "XREPZEUR"
  position_id := some 1
  entry_price := 100
  stop_price := 98
  position_size := 1
  last_update := 0

/-- Witness for C4's amended theorem: a concrete active state rejects a
buy on both implementations without touching the state. -/
theorem c4_reject_no_mutation_witness :
    ((Web.execute_buy c4_env "ETH/EUR" (2/100) none c4_state).2.1 = c4_state ∧
      (Web.execute_buy c4_env "ETH/EUR" (2/100) none c4_state).2.2 = [] ∧
      ((Web.execute_buy c4_env "ETH/EUR" (2/100) none c4_state).1 =
          Web.BuyResult.invalidSymbol ∨
        (Web.execute_buy c4_env "ETH/EUR" (2/100) none c4_state).1 =
          Web.BuyResult.alreadyActive) ∧
      (Web.validate_symbol c4_env.markets "ETH/EUR" = true →
        (Web.execute_buy c4_env "ETH/EUR" (2/100) none c4_state).1 =
          Web.BuyResult.alreadyActive)) ∧
    Bot.execute_buy c4_bot_env "ETH/EUR" (2/100) c4_bot_state =
      (Bot.BuyResult.activeErr c4_bot_state.current_symbol, c4_bot_state, []) :=
  ⟨c4_reject_no_mutation.1 c4_env "ETH/EUR" (2/100) none c4_state rfl,
   c4_reject_no_mutation.2 c4_bot_env "ETH/EUR" (2/100) c4_bot_state rfl⟩

/-! ## C5 -/

def c5_raise_env : Web.SellEnv where
  balance_free := some 1
  limit_order_id := none
  market_order_id := some "MKT-9"
  exit_ticker := Web.TickerOutcome.raised

def c5_raise_state : Web.State where
  active_position := true
  current_symbol := some "BTC/EUR"
  entry_price := some 100
  stop_price := some 98
  position_size := 2/5
  take_profit := none
  last_order_id := some "B1"
  last_update := some 0
  current_capital := 40

/-- C5 counterexample: the LIMIT attempt raises, the fallback MARKET
order is placed and filled, but the post-order `_safe_get_ticker`
(web_server.py line 294) re-raises `NetworkError` into the outer
`except` (lines 304-306), which returns failure without
`_reset_trading_state()`: exactly one market order filled, yet the
position does not end closed — the state is unchanged and
`active_position` is still `true`. -/
theorem c5_counterexample :
    Web.execute_sell c5_raise_env c5_raise_state =
      (Web.SellResult.failed, c5_raise_state,
        [OrderCall.sellLimit, OrderCall.sellMarket]) ∧
    c5_raise_state.active_position = true := by
  constructor
  · norm_num [Web.execute_sell, c5_raise_env, c5_raise_state]
  · rfl

/-- C5 amended: a sell on an active position whose LIMIT attempt raises
places exactly one fallback MARKET order in every case (trace
`[sellLimit, sellMarket]`).  In web_server the position then ends closed
(full state reset) whenever the post-order ticker fetch does not
re-raise; when `_safe_get_ticker` re-raises, the call returns failure
and the position stays active despite the filled order.  bot.py always
ends in the reset state (its `finally:` clause), so there the position
ends closed. -/
theorem c5_limit_fallback_market :
    (∀ (env : Web.SellEnv) (s : Web.State) (b : ℚ) (oid : String),
        s.active_position = true →
        env.balance_free = some b →
        env.limit_order_id = none →
        env.market_order_id = some oid →
        (Web.execute_sell env s).2.2 = [OrderCall.sellLimit, OrderCall.sellMarket] ∧
        (env.exit_ticker ≠ Web.TickerOutcome.raised →
          Web.execute_sell env s =
            (Web.SellResult.ok oid, Web.reset_trading_state,
              [OrderCall.sellLimit, OrderCall.sellMarket])) ∧
        (env.exit_ticker = Web.TickerOutcome.raised →
          Web.execute_sell env s =
            (Web.SellResult.failed, s, [OrderCall.sellLimit, OrderCall.sellMarket]))) ∧
    (∀ (env : Bot.SellEnv) (s : Bot.State) (b : ℚ),
        s.active_position = true →
        env.balance_free = some b → 0 < b →
        env.limit_ok = false → env.market_ok = true →
        (Bot.execute_sell env s).1 = Bot.reset_state env.now ∧
        (Bot.execute_sell env s).2.1 = [OrderCall.sellLimit, OrderCall.sellMarket]) := by
  constructor
  · intro env s b oid hA hB hL hM
    refine ⟨?_, ?_, ?_⟩
    · cases hT : env.exit_ticker <;> simp [Web.execute_sell, hA, hB, hL, hM, hT]
    · intro hne
      cases hT : env.exit_ticker with
      | raised => exact absurd hT hne
      | price bid => simp [Web.execute_sell, hA, hB, hL, hM, hT]
      | returnedNone => simp [Web.execute_sell, hA, hB, hL, hM, hT]
    · intro hT
      simp [Web.execute_sell, hA, hB, hL, hM, hT]
  · intro env s b hA hB hpos hL hM
    have hns : ¬ (b ≤ 0) := not_le.mpr hpos
    exact ⟨bot_sell_reset env s, by simp [Bot.execute_sell, hA, hB, hL, hM, hns]⟩

def c5_web_env : Web.SellEnv where
  balance_free := some 1
  limit_order_id := none
  market_order_id := some "MKT-9"
  exit_ticker := Web.TickerOutcome.price 100

def c5_web_state : Web.State where
  active_position := true
  current_symbol := some "BTC/EUR"
  entry_price := some 100
  stop_price := some 98
  position_size := 2/5
  take_profit := none
  last_order_id := some "B1"
  last_update := some 0
  current_capital := 40

def c5_bot_env : Bot.SellEnv where
  balance_free := some 1
  limit_ok := false
  market_ok := true
  post_ok := true
  now := 7

def c5_bot_state : Bot.State where
  active_position := true
  current_symbol := some "XREPZEUR"
  position_id := some 3
  entry_price := 100
  stop_price := 98
  position_size := 1
  last_update := 0

/-- Witness for C5's amended theorem: a concrete failing limit order on
both implementations, with a ticker fetch that does not re-raise. -/
theorem c5_limit_fallback_market_witness :
    ((Web.execute_sell c5_web_env c5_web_state).2.2 =
        [OrderCall.sellLimit, OrderCall.sellMarket] ∧
      Web.execute_sell c5_web_env c5_web_state =
        (Web.SellResult.ok "MKT-9", Web.reset_trading_state,
          [OrderCall.sellLimit, OrderCall.sellMarket])) ∧
    ((Bot.execute_sell c5_bot_env c5_bot_state).1 = Bot.reset_state 7 ∧
      (Bot.execute_sell c5_bot_env c5_bot_state).2.1 =
        [OrderCall.sellLimit, OrderCall.sellMarket]) :=
  have hw := c5_limit_fallback_market.1 c5_web_env c5_web_state 1 "MKT-9" rfl rfl rfl rfl
  have hb := c5_limit_fallback_market.2 c5_bot_env c5_bot_state 1 rfl rfl (by norm_num) rfl rfl
  ⟨⟨hw.1, hw.2.1 (by decide)⟩, ⟨hb.1, hb.2⟩⟩

/-! ## C6 -/

/-- C6: the web_server nonce step is strictly increasing — when the
clock has not advanced past the last issued nonce it returns the last
nonce plus one — but `ExchangeClient._nonce_generator` yields `base + 1`
on every call without ever updating `last_nonce`: its second nonce
equals its first instead of exceeding it. -/
theorem c6_nonce_generators :
    (∀ (current last : ℤ), last < Web.nonce_step current last) ∧
    Exch.nonce_value 0 1 = Exch.nonce_value 0 0 := by
  constructor
  · intro c l
    unfold Web.nonce_step
    split
    · assumption
    · omega
  · rfl

/-! ## C9 -/

/-- C9: `whenever no position is active, current_capital = INITIAL_CAPITAL`
holds initially and is preserved by `execute_buy`, `execute_sell` and
every monitor iteration; a successful `execute_sell` in particular ends
in `_reset_trading_state()`, whose capital is `INITIAL_CAPITAL` — the
realized profit added just before is never carried into the next trade. -/
theorem c9_capital_reset :
    Web.CapInv Web.reset_trading_state ∧
    (∀ (env : Web.BuyEnv) (symbol : String) (t : ℚ) (tp : Option ℚ) (s : Web.State),
        Web.CapInv s → Web.CapInv (Web.execute_buy env symbol t tp s).2.1) ∧
    (∀ (env : Web.SellEnv) (s : Web.State),
        Web.CapInv s → Web.CapInv (Web.execute_sell env s).2.1) ∧
    (∀ (e : Web.TickEnv) (s : Web.State),
        Web.CapInv s → Web.CapInv (Web.manage_orders_step e s).1) ∧
    (∀ (env : Web.SellEnv) (s : Web.State) (oid : String),
        (Web.execute_sell env s).1 = Web.SellResult.ok oid →
        (Web.execute_sell env s).2.1 = Web.reset_trading_state) := by
  refine ⟨fun _ => rfl, ?buy, ?sell, ?mon, ?sellok⟩
  case buy =>
    intro env symbol t tp s hInv
    cases hV : Web.validate_symbol env.markets symbol with
    | false => simpa [Web.execute_buy, hV] using hInv
    | true =>
      cases hA : s.active_position with
      | true => simpa [Web.execute_buy, hV, hA] using hInv
      | false =>
        cases hT : env.ticker_ask with
        | none => simpa [Web.execute_buy, hV, hA, hT] using hInv
        | some ask =>
          by_cases hM : quantize8 (s.current_capital / ask) < env.min_order_size
          · simpa [Web.execute_buy, hV, hA, hT, hM] using hInv
          · cases hO : env.order_id with
            | none => simpa [Web.execute_buy, hV, hA, hT, hM, hO] using hInv
            | some oid =>
              intro hfalse
              simp [Web.execute_buy, hV, hA, hT, hM, hO] at hfalse
  case sell =>
    intro env s hInv
    rcases web_sell_state env s with h | h
    · rw [h]; exact hInv
    · rw [h]; intro _; rfl
  case mon =>
    intro e s hInv
    cases hA : s.active_position with
    | false => simpa [Web.manage_orders_step, hA] using hInv
    | true =>
      cases hT : Web.timeout_hit e s with
      | true =>
        simp only [Web.manage_orders_step, hA, Bool.not_true, Bool.false_eq_true,
          if_false, hT, if_true]
        rcases web_sell_state e.sellEnv s with h | h
        · rw [h]; exact hInv
        · rw [h]; intro _; rfl
      | false =>
        cases hB : e.ticker_bid with
        | none => simpa [Web.manage_orders_step, hA, hT, hB] using hInv
        | some price =>
          cases hS : s.stop_price with
          | none => simpa [Web.manage_orders_step, hA, hT, hB, hS] using hInv
          | some stop =>
            by_cases hPS : price ≤ stop
            · simp only [Web.manage_orders_step, hA, Bool.not_true, Bool.false_eq_true,
                if_false, hT, hB, hS, hPS, if_true]
              rcases web_sell_state e.sellEnv s with h | h
              · rw [h]; exact hInv
              · rw [h]; intro _; rfl
            · cases hTP : Web.take_profit_hit price s with
              | true =>
                simp only [Web.manage_orders_step, hA, Bool.not_true, Bool.false_eq_true,
                  if_false, hT, hB, hS, hPS, hTP, if_true]
                rcases web_sell_state e.sellEnv s with h | h
                · rw [h]; exact hInv
                · rw [h]; intro _; rfl
              | false =>
                by_cases hNS : stop < price * (1 - Web.DEFAULT_TRAILING)
                · simp only [Web.manage_orders_step, hA, Bool.not_true, Bool.false_eq_true,
                    if_false, hT, hB, hS, hPS, hTP, hNS, if_true]
                  intro hfalse
                  simp [hA] at hfalse
                · simpa [Web.manage_orders_step, hA, hT, hB, hS, hPS, hTP, hNS] using hInv
  case sellok =>
    intro env s oid hok
    cases hA : s.active_position with
    | false => simp [Web.execute_sell, hA] at hok
    | true =>
      cases hB : env.balance_free with
      | none => simp [Web.execute_sell, hA, hB] at hok
      | some bal =>
        cases hL : env.limit_order_id with
        | some l =>
          cases hT : env.exit_ticker with
          | price bid => simp [Web.execute_sell, hA, hB, hL, hT]
          | returnedNone => simp [Web.execute_sell, hA, hB, hL, hT]
          | raised => simp [Web.execute_sell, hA, hB, hL, hT] at hok
        | none =>
          cases hM : env.market_order_id with
          | none => simp [Web.execute_sell, hA, hB, hL, hM] at hok
          | some m =>
            cases hT : env.exit_ticker with
            | price bid => simp [Web.execute_sell, hA, hB, hL, hM, hT]
            | returnedNone => simp [Web.execute_sell, hA, hB, hL, hM, hT]
            | raised => simp [Web.execute_sell, hA, hB, hL, hM, hT] at hok

def c9_buy_env : Web.BuyEnv where
  markets := ["BTC/EUR"]
  ticker_ask := some 100
  min_order_size := 1/100000000
  order_id := some "B9"
  now := 0

def c9_state : Web.State where
  active_position := true
  current_symbol := some "BTC/EUR"
  entry_price := some 100
  stop_price := some 98
  position_size := 2/5
  take_profit := none
  last_order_id := some "B9"
  last_update := some 0
  current_capital := 40

def c9_sell_env : Web.SellEnv where
  balance_free := some 1
  limit_order_id := some "L9"
  market_order_id := none
  exit_ticker := Web.TickerOutcome.price 110

def c9_tick : Web.TickEnv where
  now := 60
  ticker_bid := some 100
  sellEnv :=
    { balance_free := some 1, limit_order_id := some "L9",
      market_order_id := none, exit_ticker := Web.TickerOutcome.price 110 }

/-- Witness for C9: the invariant-preservation theorem applied at a
concrete buy, sell and monitor tick, and the concrete successful sell
ending in the reset state. -/
theorem c9_capital_reset_witness :
    Web.CapInv (Web.execute_buy c9_buy_env "BTC/EUR" (2/100) none
      Web.reset_trading_state).2.1 ∧
    Web.CapInv (Web.execute_sell c9_sell_env c9_state).2.1 ∧
    Web.CapInv (Web.manage_orders_step c9_tick c9_state).1 ∧
    (Web.execute_sell c9_sell_env c9_state).2.1 = Web.reset_trading_state :=
  ⟨c9_capital_reset.2.1 c9_buy_env "BTC/EUR" (2/100) none Web.reset_trading_state
      c9_capital_reset.1,
   c9_capital_reset.2.2.1 c9_sell_env c9_state
      (by intro h; simp [c9_state] at h),
   c9_capital_reset.2.2.2.1 c9_tick c9_state
      (by intro h; simp [c9_state] at h),
   c9_capital_reset.2.2.2.2 c9_sell_env c9_state "L9"
      (by norm_num [Web.execute_sell, c9_sell_env, c9_state])⟩

/-! ## C8 -/

/-- A monitor iteration on an inactive position does nothing. -/
lemma web_step_inactive (e : Web.TickEnv) (s : Web.State)
    (h : s.active_position = false) :
    Web.manage_orders_step e s = (s, Web.MonAction.idle) := by
  simp [Web.manage_orders_step, h]

/-- A monitor run started on an inactive position never fires a forced
sell. -/
lemma web_run_inactive (ticks : List Web.TickEnv) (s : Web.State)
    (h : s.active_position = false) :
    Web.count_forced (Web.manage_orders_run ticks s).2 = 0 := by
  induction ticks generalizing s with
  | nil => simp [Web.manage_orders_run, Web.count_forced]
  | cons e rest ih =>
    simp only [Web.manage_orders_run, web_step_inactive e s h]
    simpa [Web.count_forced] using ih s h

/-- When the balance fetch works and an order attempt is filled, a sell on
an active position ends in the reset state. -/
lemma web_sell_success_reset (env : Web.SellEnv) (s : Web.State)
    (hA : s.active_position = true) (h : Web.sell_succeeds env = true) :
    (Web.execute_sell env s).2.1 = Web.reset_trading_state := by
  simp only [Web.sell_succeeds, Bool.and_eq_true, Bool.or_eq_true,
    Bool.not_eq_true'] at h
  obtain ⟨⟨hb, ho⟩, ht⟩ := h
  obtain ⟨b, hb⟩ := Option.isSome_iff_exists.mp hb
  cases hT : env.exit_ticker with
  | raised => rw [hT] at ht; simp [Web.ticker_raised] at ht
  | price bid =>
    cases hL : env.limit_order_id with
    | some l => simp [Web.execute_sell, hA, hb, hL, hT]
    | none =>
      cases hM : env.market_order_id with
      | none => rw [hL, hM] at ho; simp at ho
      | some m => simp [Web.execute_sell, hA, hb, hL, hM, hT]
  | returnedNone =>
    cases hL : env.limit_order_id with
    | some l => simp [Web.execute_sell, hA, hb, hL, hT]
    | none =>
      cases hM : env.market_order_id with
      | none => rw [hL, hM] at ho; simp at ho
      | some m => simp [Web.execute_sell, hA, hb, hL, hM, hT]

/-- C8: over any monitor run on an active position whose ticks produce no
qualifying stop movement (each bid stays above the stop and recomputes a
trailing stop not exceeding it, so `last_update` never advances), whose
sells succeed, and which runs past the 30-minute timeout, the
timeout-forced `execute_sell` fires exactly once: the first late tick
resets the state and every later iteration sees no active position. -/
theorem c8_forced_sell_once :
    ∀ (ticks : List Web.TickEnv) (s : Web.State) (u stop : ℚ),
      s.active_position = true →
      s.last_update = some u →
      s.stop_price = some stop →
      s.take_profit = none →
      ticks.all (Web.tick_no_movement stop) = true →
      ticks.all (fun e => Web.sell_succeeds e.sellEnv) = true →
      ticks.any (fun e => decide (1800 < e.now - u)) = true →
      Web.count_forced (Web.manage_orders_run ticks s).2 = 1 := by
  intro ticks
  induction ticks with
  | nil =>
    intro s u stop _ _ _ _ _ _ hany
    simp at hany
  | cons e rest ih =>
    intro s u stop hA hU hS hTP hall hsell hany
    rw [List.all_cons, Bool.and_eq_true] at hall hsell
    obtain ⟨htick, hallr⟩ := hall
    obtain ⟨hselle, hsellr⟩ := hsell
    by_cases h1800 : (1800 : ℚ) < e.now - u
    · have hth : Web.timeout_hit e s = true := by
        simp [Web.timeout_hit, hU, h1800]
      have hstep : Web.manage_orders_step e s =
          ((Web.execute_sell e.sellEnv s).2.1,
            Web.MonAction.timeoutSell (Web.execute_sell e.sellEnv s).1) := by
        simp [Web.manage_orders_step, hA, hth]
      have hrun : Web.manage_orders_run (e :: rest) s =
          ((Web.manage_orders_run rest Web.reset_trading_state).1,
            Web.MonAction.timeoutSell (Web.execute_sell e.sellEnv s).1 ::
              (Web.manage_orders_run rest Web.reset_trading_state).2) := by
        simp [Web.manage_orders_run, hstep,
          web_sell_success_reset e.sellEnv s hA hselle]
      rw [hrun]
      simp only [Web.count_forced]
      rw [web_run_inactive rest Web.reset_trading_state rfl]
    · cases hB : e.ticker_bid with
      | none =>
        simp only [Web.tick_no_movement, hB] at htick
        cases htick
      | some p =>
        simp only [Web.tick_no_movement, hB, Bool.and_eq_true, decide_eq_true_eq] at htick
        have hth : Web.timeout_hit e s = false := by
          simp [Web.timeout_hit, hU, h1800]
        have hstep : Web.manage_orders_step e s = (s, Web.MonAction.noChange) := by
          have hps : ¬ (p ≤ stop) := not_le.mpr htick.1
          have hns : ¬ (stop < p * (1 - Web.DEFAULT_TRAILING)) := not_lt.mpr htick.2
          have htph : Web.take_profit_hit p s = false := by
            simp [Web.take_profit_hit, hTP]
          simp [Web.manage_orders_step, hA, hth, hB, hS, hps, htph, hns]
        have hrun : Web.manage_orders_run (e :: rest) s =
            ((Web.manage_orders_run rest s).1,
              Web.MonAction.noChange :: (Web.manage_orders_run rest s).2) := by
          simp [Web.manage_orders_run, hstep]
        rw [hrun]
        simp only [Web.count_forced]
        refine ih s u stop hA hU hS hTP hallr hsellr ?_
        rw [List.any_cons, Bool.or_eq_true] at hany
        rcases hany with h | h
        · rw [decide_eq_true_eq] at h
          exact absurd h h1800
        · exact h

def c8_state : Web.State where
  active_position := true
  current_symbol := some "BTC/EUR"
  entry_price := some 100
  stop_price := some 98
  position_size := 2/5
  take_profit := none
  last_order_id := some "B8"
  last_update := some 0
  current_capital := 40

def c8_tick : Web.TickEnv where
  now := 2000
  ticker_bid := some 99
  sellEnv :=
    { balance_free := some 1, limit_order_id := some "L8",
      market_order_id := none, exit_ticker := Web.TickerOutcome.price 99 }

/-- Witness for C8: a position opened at time 0 with stop 98, one tick at
time 2000 s (past the 30-minute ceiling) with bid 99 (no qualifying
movement, sell succeeds): the forced sell fires exactly once. -/
theorem c8_forced_sell_once_witness :
    Web.count_forced (Web.manage_orders_run [c8_tick] c8_state).2 = 1 :=
  c8_forced_sell_once [c8_tick] c8_state 0 98 rfl rfl rfl rfl
    (by norm_num [Web.tick_no_movement, Web.DEFAULT_TRAILING, c8_tick])
    (by norm_num [Web.sell_succeeds, Web.ticker_raised, c8_tick])
    (by norm_num [c8_tick])

/-! ## C10 -/

/-- Looking a symbol up right after storing its key finds that key
(Python dict set/get round trip). -/
lemma lpGet_lpSet_self (m : Sig.LastMap) (q : String) (k : Sig.SigKey) :
    Sig.lpGet (Sig.lpSet m q k) q = some k := by
  induction m with
  | nil => simp [Sig.lpSet, Sig.lpGet]
  | cons p rest ih =>
    obtain ⟨s, k'⟩ := p
    by_cases h : s = q
    · simp [Sig.lpSet, Sig.lpGet, h]
    · simp [Sig.lpSet, Sig.lpGet, h, ih]

/-- Two normalized signals for the same symbol whose duplicate-detection
frozensets coincide agree on action and trailing stop: the unordered
triple still determines both remaining fields, because the trailing
rational lives in the right summand and the two strings can only swap
with each other. -/
lemma sigKey_fields (n1 n2 : Sig.NormSignal)
    (hsym : n1.symbol = n2.symbol) (hkey : Sig.sigKey n1 = Sig.sigKey n2) :
    n1.action = n2.action ∧ n1.trailing_stop = n2.trailing_stop := by
  constructor
  · have h2 : (Sum.inl n1.action : Sum String ℚ) ∈ Sig.sigKey n2 := by
      rw [← hkey]; simp [Sig.sigKey]
    have h3 : (Sum.inl n2.action : Sum String ℚ) ∈ Sig.sigKey n1 := by
      rw [hkey]; simp [Sig.sigKey]
    simp only [Sig.sigKey, Finset.mem_insert, Finset.mem_singleton,
      Sum.inl.injEq, reduceCtorEq, or_false] at h2 h3
    rcases h2 with h2 | h2
    · rcases h3 with h3 | h3
      · rw [h2, ← hsym, h3]
      · exact h3.symm
    · exact h2
  · have h1 : (Sum.inr n1.trailing_stop : Sum String ℚ) ∈ Sig.sigKey n2 := by
      rw [← hkey]; simp [Sig.sigKey]
    simpa only [Sig.sigKey, Finset.mem_insert, Finset.mem_singleton,
      Sum.inr.injEq, reduceCtorEq, false_or] using h1

/-- C10: the first valid signal for a symbol is never suppressed; an
immediately following valid signal with the same normalized
(symbol, action, trailing_stop) triple is suppressed (returns `none`);
and a following valid signal for the same symbol that differs in the
normalized action or trailing stop is not suppressed.  Python's `hash`
of the frozenset is modelled injectively by the set itself (an
accidental hash collision could only suppress more, never less). -/
theorem c10_duplicate_suppression :
    ∀ (sig : Sig.RawSignal) (now : ℚ) (m : Sig.LastMap),
      Sig.validate_signal sig = true →
      Sig.lpGet m (Sig.normalize_signal sig now).symbol = none →
      (Sig.process_signal sig now m).1 = some (Sig.normalize_signal sig now) ∧
      (∀ now2 : ℚ,
        (Sig.process_signal sig now2 (Sig.process_signal sig now m).2).1 = none) ∧
      (∀ (sig2 : Sig.RawSignal) (now3 : ℚ),
        Sig.validate_signal sig2 = true →
        (Sig.normalize_signal sig2 now3).symbol = (Sig.normalize_signal sig now).symbol →
        ((Sig.normalize_signal sig2 now3).action ≠ (Sig.normalize_signal sig now).action ∨
          (Sig.normalize_signal sig2 now3).trailing_stop ≠
            (Sig.normalize_signal sig now).trailing_stop) →
        (Sig.process_signal sig2 now3 (Sig.process_signal sig now m).2).1 =
          some (Sig.normalize_signal sig2 now3)) := by
  intro sig now m hval hget
  have hdup1 : Sig.is_duplicate (Sig.normalize_signal sig now) m =
      (false, Sig.lpSet m (Sig.normalize_signal sig now).symbol
        (Sig.sigKey (Sig.normalize_signal sig now))) := by
    simp [Sig.is_duplicate, hget]
  have hproc1 : Sig.process_signal sig now m =
      (some (Sig.normalize_signal sig now),
        Sig.lpSet m (Sig.normalize_signal sig now).symbol
          (Sig.sigKey (Sig.normalize_signal sig now))) := by
    simp [Sig.process_signal, hval, hdup1]
  refine ⟨by rw [hproc1], ?dup, ?diff⟩
  case dup =>
    intro now2
    rw [hproc1]
    have hget2 : Sig.lpGet (Sig.lpSet m (Sig.normalize_signal sig now).symbol
        (Sig.sigKey (Sig.normalize_signal sig now)))
        (Sig.normalize_signal sig now2).symbol =
        some (Sig.sigKey (Sig.normalize_signal sig now2)) :=
      lpGet_lpSet_self m _ _
    simp [Sig.process_signal, hval, Sig.is_duplicate, hget2]
  case diff =>
    intro sig2 now3 hval2 hsym hne
    rw [hproc1]
    have hget3 : Sig.lpGet (Sig.lpSet m (Sig.normalize_signal sig now).symbol
        (Sig.sigKey (Sig.normalize_signal sig now)))
        (Sig.normalize_signal sig2 now3).symbol =
        some (Sig.sigKey (Sig.normalize_signal sig now)) := by
      rw [hsym]; exact lpGet_lpSet_self m _ _
    have hkne : ¬ (Sig.sigKey (Sig.normalize_signal sig now) =
        Sig.sigKey (Sig.normalize_signal sig2 now3)) := by
      intro h
      have hf := sigKey_fields (Sig.normalize_signal sig now)
        (Sig.normalize_signal sig2 now3) hsym.symm h
      rcases hne with hne | hne
      · exact hne hf.1.symm
      · exact hne hf.2.symm
    simp [Sig.process_signal, hval2, Sig.is_duplicate, hget3, hkne]

def c10_sig : Sig.RawSignal where
  action := "buy"
  symbol := "REP/EUR"
  trailing_stop := 2/100
  take_profit := none

def c10_sig2 : Sig.RawSignal where
  action := "sell"
  symbol := "REP/EUR"
  trailing_stop := 2/100
  take_profit := none

/-- Witness for C10: a first valid buy signal for REP/EUR passes, an
identical repeat is suppressed, and a sell signal for the same symbol
(differing action) passes. -/
theorem c10_duplicate_suppression_witness :
    (Sig.process_signal c10_sig 1 []).1 = some (Sig.normalize_signal c10_sig 1) ∧
    (Sig.process_signal c10_sig 2 (Sig.process_signal c10_sig 1 []).2).1 = none ∧
    (Sig.process_signal c10_sig2 3 (Sig.process_signal c10_sig 1 []).2).1 =
      some (Sig.normalize_signal c10_sig2 3) := by
  have hv1 : Sig.validate_signal c10_sig = true := by
    have h1 : (Sig.lowerStr "buy" == "buy" || Sig.lowerStr "buy" == "sell") = true := by
      decide
    have h4 : Sig.symbol_blacklist.contains (Sig.normalize_symbol "REP/EUR") = false := by
      decide
    simp only [Sig.validate_signal, c10_sig, h1, h4, Bool.and_eq_true,
      Bool.not_false, decide_eq_true_eq]
    norm_num
  have hv2 : Sig.validate_signal c10_sig2 = true := by
    have h1 : (Sig.lowerStr "sell" == "buy" || Sig.lowerStr "sell" == "sell") = true := by
      decide
    have h4 : Sig.symbol_blacklist.contains (Sig.normalize_symbol "REP/EUR") = false := by
      decide
    simp only [Sig.validate_signal, c10_sig2, h1, h4, Bool.and_eq_true,
      Bool.not_false, decide_eq_true_eq]
    norm_num
  have h := c10_duplicate_suppression c10_sig 1 [] hv1 rfl
  exact ⟨h.1, h.2.1 2, h.2.2 c10_sig2 3 hv2 rfl (Or.inl (by decide))⟩
